import Mathlib

set_option maxRecDepth 40000

/-!
Shallow embedding of the Microsoft 365 Roadmap MCP server core
(sanitizer, result cache, upstream fetcher, tool handlers), translated
from `src/index.ts` (v2 implementation), together with theorems settling
the specification claims.
-/

namespace Roadmap

/-- Single-quote character (ASCII 39). -/
def qc : Char := Char.ofNat 39

/-- Single-quote as a string. -/
def sq : String := String.mk [qc]

/-- A roadmap item; only the fields the core logic interprets are modelled,
the rest of the upstream record passes through untouched. -/
structure RoadmapItem where
  id : String
  title : Option String := none
  description : Option String := none
  deriving DecidableEq, Repr

/-- `MAX_CACHE_AGE_MS = 5 * 60 * 1000` from the source. -/
def MAX_CACHE_AGE_MS : Nat := 5 * 60 * 1000

/-- `MAX_RESULTS_LIMIT = 1000` from the source. -/
def MAX_RESULTS_LIMIT : Int := 1000

/-- `API_TIMEOUT_MS = 30000` from the source. -/
def API_TIMEOUT_MS : Nat := 30000

/-- Errors that can be thrown before a handler's catch block:
sanitizer rejection, timeout, non-success HTTP status, JSON decode
failure, or other network errors. -/
inductive FetchError where
  | invalidFilter
  | timeout
  | httpError (status : Nat) (statusText : String) (body : String)
  | decodeError (msg : String)
  | networkError (msg : String)
  deriving DecidableEq, Repr

instance {α β : Type} [DecidableEq α] [DecidableEq β] : DecidableEq (Except α β) := fun x y => by
  cases x with
  | ok a =>
      cases y with
      | ok b => exact if h : a = b then Decidable.isTrue (by rw [h]) else Decidable.isFalse (by simp [h])
      | error b => exact Decidable.isFalse (by simp)
  | error a =>
      cases y with
      | ok b => exact Decidable.isFalse (by simp)
      | error b => exact if h : a = b then Decidable.isTrue (by rw [h]) else Decidable.isFalse (by simp [h])

/-- The `message` property of each thrown `Error`, as built by the source. -/
def FetchError.message : FetchError → String
  | .invalidFilter => "Invalid filter: potentially dangerous keywords detected"
  | .timeout => "Request timeout after 30000ms"
  | .httpError status statusText body =>
      "API request failed: " ++ toString status ++ " " ++ statusText ++ " - " ++ body
  | .decodeError m => m
  | .networkError m => m

/-! ## Filter Expression Sanitizer (`sanitizeODataFilter`) -/

/-- JS regex `\w`: `[A-Za-z0-9_]`. -/
def isWordChar (c : Char) : Bool := c.isAlpha || c.isDigit || c = '_'

/-- Lower-cased character sequence of a string (ASCII case folding, which
is what the `/i` regex flag performs on the ASCII-only keyword patterns). -/
def lowerChars (s : String) : List Char := s.data.map Char.toLower

/-- `String.prototype.toLowerCase` restricted to ASCII. -/
def lowerStr (s : String) : String := String.mk (lowerChars s)

/-- Does `w` occur at the head of `cs`? -/
def headMatches : List Char → List Char → Bool
  | [], _ => true
  | _ :: _, [] => false
  | a :: w, b :: cs => a == b && headMatches w cs

/-- `hay.includes(needle)` on character lists. -/
def containsSubstrChars (hay needle : List Char) : Bool :=
  (List.range (hay.length + 1)).any (fun i => headMatches needle (hay.drop i))

/-- The regex `\b<w>\b` matches in `cs` at position `i` (for a keyword `w`
made of word characters): `w` occurs at `i`, the character before `i` (if
any) is not a word character, and the character after the occurrence (if
any) is not a word character. -/
def wholeWordAt (cs w : List Char) (i : Nat) : Bool :=
  headMatches w (cs.drop i)
    && (decide (i = 0) || !isWordChar (cs.getD (i - 1) ' '))
    && (match (cs.drop (i + w.length)).head? with
        | none => true
        | some c => !isWordChar c)

/-- Case-insensitive whole-word containment, the semantics of
`/\b(w)\b/i.test(s)` for an all-letters keyword `w`. -/
def containsWholeWord (s w : String) : Bool :=
  let cs := lowerChars s
  (List.range (cs.length + 1)).any (fun i => wholeWordAt cs w.data i)

/-- The keyword alternatives of the `dangerousPatterns` regex. -/
def dangerousKeywords : List String :=
  ["drop", "delete", "insert", "update", "exec", "execute", "script", "javascript"]

/-- `dangerousPatterns.test(sanitized)`. -/
def hasDangerousKeyword (s : String) : Bool :=
  dangerousKeywords.any (fun w => containsWholeWord s w)

/-- `filter.replace(/[;\\]/g, '')`: remove semicolons and backslashes. -/
def stripSemicolonsBackslashes (s : String) : String :=
  String.mk (s.data.filter (fun c => !(c = ';' || c = '\\')))

/-- ASCII whitespace removed by `String.prototype.trim`. -/
def isJsSpace (c : Char) : Bool :=
  c = ' ' || c = '\t' || c = '\n' || c = '\r' || c = '\x0b' || c = '\x0c'

/-- `String.prototype.trim` (ASCII whitespace): drop leading and trailing
whitespace characters. -/
def jsTrim (s : String) : String :=
  String.mk (((s.data.dropWhile isJsSpace).reverse.dropWhile isJsSpace).reverse)

/-- `sanitizeODataFilter` from the source: strip `;` and `\`, trim, then
fail if a blocklisted keyword occurs as a whole word (case-insensitively),
else return the stripped-and-trimmed expression. -/
def sanitizeODataFilter (filter : String) : Except FetchError String :=
  if hasDangerousKeyword (jsTrim (stripSemicolonsBackslashes filter)) then
    Except.error FetchError.invalidFilter
  else Except.ok (jsTrim (stripSemicolonsBackslashes filter))

/-! ## Result Cache (`const cache = new Map<string, CacheEntry>()`) -/

/-- `CacheEntry` from the source. -/
structure CacheEntry where
  data : List RoadmapItem
  timestamp : Nat
  filter : Option String := none
  deriving DecidableEq, Repr

/-- A JS `Map` in insertion order: an association list; `set` on an
existing key updates in place, `set` on a fresh key appends. -/
abbrev Cache : Type := List (String × CacheEntry)

/-- `Map.prototype.get`. -/
def Cache.get : Cache → String → Option CacheEntry
  | [], _ => none
  | (k', v') :: rest, k => if k' = k then some v' else Cache.get rest k

/-- `Map.prototype.set`: replace in place if the key is present,
otherwise append (insertion order preserved). -/
def Cache.set : Cache → String → CacheEntry → Cache
  | [], k, v => [(k, v)]
  | (k', v') :: rest, k, v =>
      if k' = k then (k, v) :: rest else (k', v') :: Cache.set rest k v

/-- `Map.prototype.delete` (removes the entry for the key, if present). -/
def Cache.delete : Cache → String → Cache
  | [], _ => []
  | (k', v') :: rest, k => if k' = k then rest else (k', v') :: Cache.delete rest k

/-- `Map.prototype.size` (the key sets we build are duplicate-free). -/
def Cache.size (c : Cache) : Nat := List.length c

/-- `Array.from(cache.keys())`: keys in iteration (insertion) order. -/
def Cache.keys (c : Cache) : List String := List.map Prod.fst c

/-! ## Upstream Fetcher (`fetchRoadmapItemsV2`) -/

/-- Outcome of the network call and JSON decode on a cache miss: either a
decoded body whose `value` field may be absent, or a thrown error. -/
abbrev UpstreamOutcome := Except FetchError (Option (List RoadmapItem))

/-- `filter ? sanitizeODataFilter(filter) : undefined` (the empty string is
falsy in JS). -/
def resolveFilter (filter : Option String) : Except FetchError (Option String) :=
  match filter with
  | none => Except.ok none
  | some f =>
      if f = "" then Except.ok none
      else (sanitizeODataFilter f).map some

/-- `const cacheKey = sanitizedFilter || 'all'` (empty string is falsy). -/
def cacheKeyOf (sf : Option String) : String :=
  match sf with
  | none => "all"
  | some s => if s = "" then "all" else s

/-- Lines 113–117 of the source: the cached entry is used only when it
exists and its age is strictly below `MAX_CACHE_AGE_MS`. -/
def cacheLookup (c : Cache) (now : Nat) (key : String) : Option (List RoadmapItem) :=
  match Cache.get c key with
  | some cached => if now - cached.timestamp < MAX_CACHE_AGE_MS then some cached.data else none
  | none => none

/-- Lines 144–156 of the source: `cache.set(...)` followed by the capacity
cleanup that deletes the first key in iteration order once the size
exceeds 50. -/
def cacheStore (c : Cache) (key : String) (entry : CacheEntry) : Cache :=
  if 50 < (Cache.set c key entry).size then
    match (Cache.set c key entry).keys with
    | [] => Cache.set c key entry
    | k0 :: _ => Cache.delete (Cache.set c key entry) k0
  else Cache.set c key entry

/-- The miss path of `fetchRoadmapItemsV2` (lines 119–167): on a decoded
response take `data.value || []` and store it; a thrown error is
propagated and the cache is left untouched. -/
def fetchUpstream (c : Cache) (now : Nat) (sf : Option String) (key : String)
    (u : UpstreamOutcome) : Except FetchError (List RoadmapItem) × Cache :=
  match u with
  | Except.ok value =>
      let items := value.getD []
      (Except.ok items, cacheStore c key { data := items, timestamp := now, filter := sf })
  | Except.error e => (Except.error e, c)

/-- `fetchRoadmapItemsV2` from the source: sanitize the filter, derive the
cache key, consult the cache (TTL-guarded), and on a miss perform the
upstream fetch, storing only after full success. -/
def fetchRoadmapItemsV2 (c : Cache) (now : Nat) (filter : Option String)
    (u : UpstreamOutcome) : Except FetchError (List RoadmapItem) × Cache :=
  match resolveFilter filter with
  | Except.error e => (Except.error e, c)
  | Except.ok sf =>
      match cacheLookup c now (cacheKeyOf sf) with
      | some data => (Except.ok data, c)
      | none => fetchUpstream c now sf (cacheKeyOf sf) u

/-! ## JavaScript `Array.prototype.slice` -/

/-- `Array.prototype.slice(start, end)` for integer arguments (ECMA-262):
negative indices count from the end, both ends are clamped to the array
bounds, and the resulting range may be empty. -/
def jsSlice (l : List RoadmapItem) (start stop : Int) : List RoadmapItem :=
  let len : Int := l.length
  let s := if start < 0 then max (len + start) 0 else min start len
  let e := if stop < 0 then max (len + stop) 0 else min stop len
  (l.drop s.toNat).take (e - s).toNat

/-! ## Filter expression builders of the tool handlers -/

/-- `product.replace(/'/g, "''")`: double every embedded single quote. -/
def escapeSingleQuotes (s : String) : String :=
  String.mk (s.data.flatMap (fun c => if c = qc then [qc, qc] else [c]))

/-- Filter built by the `filter_by_product` handler. -/
def productFilter (product : String) : String :=
  "products/any(p:p eq " ++ sq ++ escapeSingleQuotes product ++ sq ++ ")"

/-- `phase` enum of the `filter_by_release_phase` input schema. -/
inductive Phase where
  | generalAvailability
  | publicPreview
  | inDevelopment
  | rollingOut
  deriving DecidableEq, Repr

/-- The enum label as it appears in the schema and in the filter. -/
def Phase.label : Phase → String
  | .generalAvailability => "General Availability"
  | .publicPreview => "Public Preview"
  | .inDevelopment => "In Development"
  | .rollingOut => "Rolling Out"

/-- Filter built by the `filter_by_release_phase` handler. -/
def phaseFilter (phase : Phase) : String :=
  "releaseRings/any(r:r eq " ++ sq ++ phase.label ++ sq ++ ")"

/-- `status` enum of the `filter_by_status` input schema. -/
inductive Status where
  | inDevelopment
  | rollingOut
  | launched
  deriving DecidableEq, Repr

/-- The enum label as it appears in the schema and in the filter. -/
def Status.label : Status → String
  | .inDevelopment => "In development"
  | .rollingOut => "Rolling out"
  | .launched => "Launched"

/-- Filter built by the `filter_by_status` handler. -/
def statusFilter (status : Status) : String :=
  "status eq " ++ sq ++ status.label ++ sq

/-- `dateType` enum of the `filter_by_date` input schema. -/
inductive DateType where
  | generalAvailability
  | preview
  deriving DecidableEq, Repr

/-- The enum label as supplied by the caller and echoed in the envelope. -/
def DateType.label : DateType → String
  | .generalAvailability => "generalAvailability"
  | .preview => "preview"

/-- The field name the `filter_by_date` handler maps `dateType` to. -/
def dateField (dt : DateType) : String :=
  match dt with
  | .generalAvailability => "generalAvailabilityDate"
  | .preview => "previewAvailabilityDate"

/-- Filter built by the `filter_by_date` handler (the raw `date` argument
is interpolated between single-quote delimiters). -/
def dateFilter (date : String) (dt : DateType) : String :=
  dateField dt ++ " eq " ++ sq ++ date ++ sq

/-- Filter built by the `get_roadmap_item` handler: `id eq <raw id>`
(no quote delimiters, no escaping). -/
def idFilter (id : String) : String := "id eq " ++ id

/-! ## Tool handler response envelopes

Each structure mirrors the JSON object literal the handler passes to
`JSON.stringify`; the `jsonKeys` lists record the object's key set. -/

/-- Success envelope of `get_roadmap_items`. -/
structure GetItemsEnvelope where
  total : Nat
  returned : Nat
  offset : Int
  limit : Int
  hasMore : Bool
  items : List RoadmapItem
  deriving DecidableEq, Repr

/-- Keys of the `get_roadmap_items` success object literal. -/
def GetItemsEnvelope.jsonKeys : List String :=
  ["total", "returned", "offset", "limit", "hasMore", "items"]

/-- Error object of `get_roadmap_items` (`createMCPError` with
`data = { filter, limit, offset }`, the raw arguments). -/
structure GetItemsErr where
  code : Int
  message : String
  dataFilter : Option String
  dataLimit : Int
  dataOffset : Int
  deriving DecidableEq, Repr

/-- Success envelope of `search_roadmap`. -/
structure SearchEnvelope where
  keyword : String
  found : Nat
  items : List RoadmapItem
  deriving DecidableEq, Repr

/-- Keys of the `search_roadmap` success object literal. -/
def SearchEnvelope.jsonKeys : List String := ["keyword", "found", "items"]

/-- Success envelope of `filter_by_product`. -/
structure ProductEnvelope where
  product : String
  total : Nat
  returned : Nat
  hasMore : Bool
  items : List RoadmapItem
  deriving DecidableEq, Repr

/-- Keys of the `filter_by_product` success object literal. -/
def ProductEnvelope.jsonKeys : List String :=
  ["product", "total", "returned", "hasMore", "items"]

/-- Error object of `filter_by_product` (`createMCPError` with
`data = { product, limit }`, the raw arguments). -/
structure ProductErr where
  code : Int
  message : String
  dataProduct : String
  dataLimit : Int
  deriving DecidableEq, Repr

/-- Success envelope of `filter_by_release_phase`. -/
structure PhaseEnvelope where
  phase : String
  total : Nat
  returned : Nat
  items : List RoadmapItem
  deriving DecidableEq, Repr

/-- Keys of the `filter_by_release_phase` success object literal. -/
def PhaseEnvelope.jsonKeys : List String := ["phase", "total", "returned", "items"]

/-- Success envelope of `filter_by_status`. -/
structure StatusEnvelope where
  status : String
  total : Nat
  returned : Nat
  items : List RoadmapItem
  deriving DecidableEq, Repr

/-- Keys of the `filter_by_status` success object literal. -/
def StatusEnvelope.jsonKeys : List String := ["status", "total", "returned", "items"]

/-- Success envelope of `filter_by_date`. -/
structure DateEnvelope where
  date : String
  dateType : String
  total : Nat
  returned : Nat
  items : List RoadmapItem
  deriving DecidableEq, Repr

/-- Keys of the `filter_by_date` success object literal. -/
def DateEnvelope.jsonKeys : List String :=
  ["date", "dateType", "total", "returned", "items"]

/-- Success envelope of `filter_roadmap`. -/
structure FilterEnvelope where
  filter : String
  total : Nat
  returned : Nat
  items : List RoadmapItem
  deriving DecidableEq, Repr

/-- Keys of the `filter_roadmap` success object literal. -/
def FilterEnvelope.jsonKeys : List String := ["filter", "total", "returned", "items"]

/-! ## Tool handlers

Each handler takes its (schema-validated) arguments together with the
ambient cache, the current time and the upstream outcome, and returns its
response (`Except.error` models the `isError: true` envelope) paired with
the cache after the call. -/

/-- The `get_roadmap_items` handler. -/
def get_roadmap_items (limit offset : Int) (filter : Option String)
    (c : Cache) (now : Nat) (u : UpstreamOutcome) :
    Except GetItemsErr GetItemsEnvelope × Cache :=
  let validatedLimit := min limit MAX_RESULTS_LIMIT
  let validatedOffset := max 0 offset
  match fetchRoadmapItemsV2 c now filter u with
  | (Except.ok items, c') =>
      let paginatedItems := jsSlice items validatedOffset (validatedOffset + validatedLimit)
      (Except.ok
        { total := items.length
          returned := paginatedItems.length
          offset := validatedOffset
          limit := validatedLimit
          hasMore := decide (validatedOffset + validatedLimit < (items.length : Int))
          items := paginatedItems }, c')
  | (Except.error e, c') =>
      (Except.error
        { code := -32000, message := e.message
          dataFilter := filter, dataLimit := limit, dataOffset := offset }, c')

/-- Does an item match the search keyword (case-insensitive substring of
title or description, absent fields never match)? -/
def matchesKeyword (searchTerm : String) (item : RoadmapItem) : Bool :=
  (match item.title with
   | some t => containsSubstrChars (lowerChars t) searchTerm.data
   | none => false)
  || (match item.description with
      | some d => containsSubstrChars (lowerChars d) searchTerm.data
      | none => false)

/-- The `search_roadmap` handler (fetches unfiltered, filters client-side,
then `slice(0, limit)`). -/
def search_roadmap (keyword : String) (limit : Int)
    (c : Cache) (now : Nat) (u : UpstreamOutcome) :
    Except String SearchEnvelope × Cache :=
  match fetchRoadmapItemsV2 c now none u with
  | (Except.ok items, c') =>
      let searchTerm := lowerStr keyword
      let filteredItems := jsSlice (items.filter (matchesKeyword searchTerm)) 0 limit
      (Except.ok { keyword := keyword, found := filteredItems.length, items := filteredItems }, c')
  | (Except.error e, c') => (Except.error ("Error: " ++ e.message), c')

/-- The `get_roadmap_item` handler: builds `id eq <id>`, fetches, and
returns the first item, or an error-flagged not-found response. -/
def get_roadmap_item (id : String) (c : Cache) (now : Nat) (u : UpstreamOutcome) :
    Except String RoadmapItem × Cache :=
  match fetchRoadmapItemsV2 c now (some (idFilter id)) u with
  | (Except.ok items, c') =>
      match items.head? with
      | none => (Except.error ("No roadmap item found with ID: " ++ id), c')
      | some item => (Except.ok item, c')
  | (Except.error e, c') => (Except.error ("Error: " ++ e.message), c')

/-- The `filter_by_product` handler. -/
def filter_by_product (product : String) (limit : Int)
    (c : Cache) (now : Nat) (u : UpstreamOutcome) :
    Except ProductErr ProductEnvelope × Cache :=
  match fetchRoadmapItemsV2 c now (some (productFilter product)) u with
  | (Except.ok items, c') =>
      let validatedLimit := min limit MAX_RESULTS_LIMIT
      let limitedItems := jsSlice items 0 validatedLimit
      (Except.ok
        { product := product
          total := items.length
          returned := limitedItems.length
          hasMore := decide (limitedItems.length < items.length)
          items := limitedItems }, c')
  | (Except.error e, c') =>
      (Except.error
        { code := -32000, message := e.message
          dataProduct := product, dataLimit := limit }, c')

/-- The `filter_by_release_phase` handler (no clamp on `limit`). -/
def filter_by_release_phase (phase : Phase) (limit : Int)
    (c : Cache) (now : Nat) (u : UpstreamOutcome) :
    Except String PhaseEnvelope × Cache :=
  match fetchRoadmapItemsV2 c now (some (phaseFilter phase)) u with
  | (Except.ok items, c') =>
      let limitedItems := jsSlice items 0 limit
      (Except.ok
        { phase := phase.label
          total := items.length
          returned := limitedItems.length
          items := limitedItems }, c')
  | (Except.error e, c') => (Except.error ("Error: " ++ e.message), c')

/-- The `filter_by_status` handler (no clamp on `limit`). -/
def filter_by_status (status : Status) (limit : Int)
    (c : Cache) (now : Nat) (u : UpstreamOutcome) :
    Except String StatusEnvelope × Cache :=
  match fetchRoadmapItemsV2 c now (some (statusFilter status)) u with
  | (Except.ok items, c') =>
      let limitedItems := jsSlice items 0 limit
      (Except.ok
        { status := status.label
          total := items.length
          returned := limitedItems.length
          items := limitedItems }, c')
  | (Except.error e, c') => (Except.error ("Error: " ++ e.message), c')

/-- The `filter_by_date` handler (no clamp on `limit`). -/
def filter_by_date (date : String) (dt : DateType) (limit : Int)
    (c : Cache) (now : Nat) (u : UpstreamOutcome) :
    Except String DateEnvelope × Cache :=
  match fetchRoadmapItemsV2 c now (some (dateFilter date dt)) u with
  | (Except.ok items, c') =>
      let limitedItems := jsSlice items 0 limit
      (Except.ok
        { date := date
          dateType := dt.label
          total := items.length
          returned := limitedItems.length
          items := limitedItems }, c')
  | (Except.error e, c') => (Except.error ("Error: " ++ e.message), c')

/-- The `filter_roadmap` handler (caller-supplied free-form filter,
no clamp on `limit`). -/
def filter_roadmap (filter : String) (limit : Int)
    (c : Cache) (now : Nat) (u : UpstreamOutcome) :
    Except String FilterEnvelope × Cache :=
  match fetchRoadmapItemsV2 c now (some filter) u with
  | (Except.ok items, c') =>
      let limitedItems := jsSlice items 0 limit
      (Except.ok
        { filter := filter
          total := items.length
          returned := limitedItems.length
          items := limitedItems }, c')
  | (Except.error e, c') => (Except.error ("Error: " ++ e.message), c')

/-! ## Specification-side characterizations and concrete fixtures -/

/-- Specification-side slicing: the claim's description of `slice(0, n)` —
a limit `n ≥ 0` keeps the first `n` items, a negative limit keeps all
items except the last `|n|`. -/
def jsSliceSpec (l : List RoadmapItem) (L : Int) : List RoadmapItem :=
  if L < 0 then l.take (l.length - L.natAbs) else l.take L.toNat

/-- Specification-side whole-word occurrence: `ws` occurs in `cs` with no
word character immediately before or after the occurrence. -/
def WholeWordOccurs (cs ws : List Char) : Prop :=
  ∃ l r : List Char,
    cs = l ++ ws ++ r ∧
    (l = [] ∨ ∃ c, l.getLast? = some c ∧ isWordChar c = false) ∧
    (r = [] ∨ ∃ c, r.head? = some c ∧ isWordChar c = false)

/-- Specification-side rejection condition of the sanitizer: some
blocklisted keyword occurs in `t` as a whole word, case-insensitively. -/
def ContainsBlockedWord (t : String) : Prop :=
  ∃ w ∈ dangerousKeywords, WholeWordOccurs (lowerChars t) w.data

/-- Collapse doubled single quotes back into single ones (inverse of the
doubling performed by `escapeSingleQuotes`). -/
def undoubleQuotes : List Char → List Char
  | [] => []
  | [c] => [c]
  | c1 :: c2 :: rest =>
      if c1 = qc ∧ c2 = qc then qc :: undoubleQuotes rest
      else c1 :: undoubleQuotes (c2 :: rest)

/-- `n` items with ids `"0" … "(n-1)"`. -/
def mkItems (n : Nat) : List RoadmapItem :=
  (List.range n).map (fun i => { id := toString i })

/-- Distinct one-character cache keys. -/
def keyChar (i : Nat) : String := String.mk [Char.ofNat (48 + i)]

/-- A fixed cache entry used in concrete cache scenarios. -/
def entry0 : CacheEntry := { data := [], timestamp := 0 }

/-- The cache obtained by storing 51 distinct keys into an empty cache
via the fetcher's store-and-evict step. -/
def store51 : Cache :=
  (List.range 51).foldl (fun c i => cacheStore c (keyChar i) entry0) ([] : Cache)

/-- A full 50-entry cache with distinct keys. -/
def cache50 : Cache := (List.range 50).map (fun i => (keyChar i, entry0))

/-! ## Equation lemmas for the fetcher -/

theorem fetch_eq_of_sanitize_error (c : Cache) (now : Nat) (f : Option String)
    (u : UpstreamOutcome) (e : FetchError) (h : resolveFilter f = Except.error e) :
    fetchRoadmapItemsV2 c now f u = (Except.error e, c) := by
  unfold fetchRoadmapItemsV2
  rw [h]

theorem fetch_eq_of_hit (c : Cache) (now : Nat) (f : Option String)
    (u : UpstreamOutcome) (sf : Option String) (data : List RoadmapItem)
    (h1 : resolveFilter f = Except.ok sf)
    (h2 : cacheLookup c now (cacheKeyOf sf) = some data) :
    fetchRoadmapItemsV2 c now f u = (Except.ok data, c) := by
  have hstep : fetchRoadmapItemsV2 c now f u =
      match cacheLookup c now (cacheKeyOf sf) with
      | some data => (Except.ok data, c)
      | none => fetchUpstream c now sf (cacheKeyOf sf) u := by
    unfold fetchRoadmapItemsV2
    rw [h1]
  rw [hstep, h2]

theorem fetch_eq_of_miss (c : Cache) (now : Nat) (f : Option String)
    (u : UpstreamOutcome) (sf : Option String)
    (h1 : resolveFilter f = Except.ok sf)
    (h2 : cacheLookup c now (cacheKeyOf sf) = none) :
    fetchRoadmapItemsV2 c now f u = fetchUpstream c now sf (cacheKeyOf sf) u := by
  have hstep : fetchRoadmapItemsV2 c now f u =
      match cacheLookup c now (cacheKeyOf sf) with
      | some data => (Except.ok data, c)
      | none => fetchUpstream c now sf (cacheKeyOf sf) u := by
    unfold fetchRoadmapItemsV2
    rw [h1]
  rw [hstep, h2]

/-! ## Cache lemmas -/

theorem Cache.get_eq_none_iff (c : Cache) (k : String) :
    Cache.get c k = none ↔ k ∉ c.keys := by
  induction c with
  | nil => simp [Cache.get, Cache.keys]
  | cons hd tl ih =>
      obtain ⟨k', v'⟩ := hd
      by_cases h : k' = k
      · subst h
        simp [Cache.get, Cache.keys]
      · simp [Cache.get, Cache.keys, h, ih, Ne.symm h]

theorem Cache.keys_set (c : Cache) (k : String) (v : CacheEntry) :
    (Cache.set c k v).keys = if k ∈ c.keys then c.keys else c.keys ++ [k] := by
  induction c with
  | nil => simp [Cache.set, Cache.keys]
  | cons hd tl ih =>
      obtain ⟨k', v'⟩ := hd
      by_cases h : k' = k
      · subst h
        simp [Cache.set, Cache.keys]
      · simp only [Cache.set, if_neg h, Cache.keys, List.map_cons]
        rw [show Cache.keys tl = List.map Prod.fst tl from rfl] at ih
        simp only [Cache.keys] at ih
        rw [ih]
        by_cases hm : k ∈ List.map Prod.fst tl
        · simp [hm, Ne.symm h]
        · simp [hm, Ne.symm h]

theorem Cache.nodup_keys_set (c : Cache) (k : String) (v : CacheEntry)
    (h : c.keys.Nodup) : (Cache.set c k v).keys.Nodup := by
  rw [Cache.keys_set]
  by_cases hm : k ∈ c.keys
  · simpa [hm] using h
  · simp only [hm, if_false]
    rw [List.nodup_append_comm]
    simpa [List.nodup_cons] using ⟨hm, h⟩

theorem Cache.get_delete_ne (c : Cache) (k k' : String) (h : k' ≠ k) :
    Cache.get (Cache.delete c k) k' = Cache.get c k' := by
  induction c with
  | nil => simp [Cache.delete]
  | cons hd tl ih =>
      obtain ⟨k0, v0⟩ := hd
      by_cases h0 : k0 = k
      · subst h0
        have hne : k0 ≠ k' := fun hh => h hh.symm
        simp [Cache.delete, Cache.get, hne]
      · simp only [Cache.delete, if_neg h0, Cache.get]
        by_cases h1 : k0 = k'
        · simp [h1]
        · simp [h1, ih]

theorem Cache.get_delete_self (c : Cache) (k : String) (h : c.keys.Nodup) :
    Cache.get (Cache.delete c k) k = none := by
  induction c with
  | nil => simp [Cache.delete, Cache.get]
  | cons hd tl ih =>
      obtain ⟨k0, v0⟩ := hd
      simp only [Cache.keys, List.map_cons, List.nodup_cons] at h
      by_cases h0 : k0 = k
      · subst h0
        simp only [Cache.delete, if_pos rfl]
        exact (Cache.get_eq_none_iff tl k0).2 h.1
      · simp only [Cache.delete, if_neg h0, Cache.get, if_neg h0]
        exact ih h.2

theorem Cache.length_delete (c : Cache) (k : String) (h : k ∈ c.keys) :
    (Cache.delete c k).length = c.length - 1 := by
  induction c with
  | nil => simp [Cache.keys] at h
  | cons hd tl ih =>
      obtain ⟨k0, v0⟩ := hd
      by_cases h0 : k0 = k
      · subst h0
        simp [Cache.delete]
      · simp only [Cache.keys, List.map_cons, List.mem_cons] at h
        rcases h with h | h
        · exact absurd h.symm h0
        · simp only [Cache.delete, if_neg h0, List.length_cons, ih h]
          have : 1 ≤ tl.length := by
            rcases tl with _ | _
            · simp [Cache.keys] at h
            · simp
          omega

/-! ## Claim C2 -/

/-- C2: whenever the size after `cache.set` exceeds 50, the store step
evicts exactly one entry — the first key in iteration (insertion) order —
leaving every other entry in place; and storing 51 distinct keys into an
initially empty cache leaves exactly 50 entries with the first-inserted
key absent and every later key still present. -/
theorem C2_capacity_eviction :
    (∀ (c : Cache) (key : String) (entry : CacheEntry) (k0 : String),
      c.keys.Nodup →
      50 < (Cache.set c key entry).size →
      (Cache.set c key entry).keys.head? = some k0 →
        cacheStore c key entry = Cache.delete (Cache.set c key entry) k0 ∧
        (cacheStore c key entry).size = (Cache.set c key entry).size - 1 ∧
        Cache.get (cacheStore c key entry) k0 = none ∧
        (∀ k', k' ≠ k0 →
          Cache.get (cacheStore c key entry) k' = Cache.get (Cache.set c key entry) k')) ∧
    store51.size = 50 ∧
    Cache.get store51 (keyChar 0) = none ∧
    ((List.range 51).drop 1).all (fun i => (Cache.get store51 (keyChar i)).isSome) = true := by
  refine ⟨?_, by decide, by decide, by decide⟩
  intro c key entry k0 hnodup hsize hhead
  have hmem : k0 ∈ (Cache.set c key entry).keys := by
    cases hk : (Cache.set c key entry).keys with
    | nil => rw [hk] at hhead; simp at hhead
    | cons a tail =>
        rw [hk] at hhead
        simp only [List.head?_cons, Option.some.injEq] at hhead
        rw [← hhead]
        exact List.mem_cons_self a tail
  have hnodup1 : (Cache.set c key entry).keys.Nodup :=
    Cache.nodup_keys_set c key entry hnodup
  have hstore : cacheStore c key entry = Cache.delete (Cache.set c key entry) k0 := by
    unfold cacheStore
    rw [if_pos hsize]
    cases hk : (Cache.set c key entry).keys with
    | nil => rw [hk] at hhead; simp at hhead
    | cons a tail =>
        rw [hk] at hhead
        simp only [List.head?_cons, Option.some.injEq] at hhead
        rw [hhead]
  refine ⟨hstore, ?_, ?_, ?_⟩
  · rw [hstore]
    exact Cache.length_delete (Cache.set c key entry) k0 hmem
  · rw [hstore]
    exact Cache.get_delete_self (Cache.set c key entry) k0 hnodup1
  · intro k' hk'
    rw [hstore]
    exact Cache.get_delete_ne (Cache.set c key entry) k0 k' hk'

/-- Witness for C2: a concrete full 50-entry cache with duplicate-free
keys; storing a fresh 51st key evicts exactly the first key. -/
theorem C2_capacity_eviction_witness :
    cacheStore cache50 (keyChar 50) entry0 =
      Cache.delete (Cache.set cache50 (keyChar 50) entry0) (keyChar 0) ∧
    (cacheStore cache50 (keyChar 50) entry0).size =
      (Cache.set cache50 (keyChar 50) entry0).size - 1 ∧
    Cache.get (cacheStore cache50 (keyChar 50) entry0) (keyChar 0) = none ∧
    (∀ k', k' ≠ keyChar 0 →
      Cache.get (cacheStore cache50 (keyChar 50) entry0) k' =
        Cache.get (Cache.set cache50 (keyChar 50) entry0) k') :=
  C2_capacity_eviction.1 cache50 (keyChar 50) entry0 (keyChar 0)
    (by decide) (by decide) (by decide)

/-! ## Claim C6 -/

/-- C6: if the upstream fetch fails for any reason (timeout, non-success
HTTP status, JSON decode failure, network error) the cache is left
completely unchanged, and the cache can change at all only when the fetch
fully succeeds and returns the decoded items. -/
theorem C6_failure_leaves_cache_unchanged :
    (∀ (c : Cache) (now : Nat) (f : Option String) (e : FetchError),
      (fetchRoadmapItemsV2 c now f (Except.error e)).2 = c) ∧
    (∀ (c : Cache) (now : Nat) (f : Option String) (u : UpstreamOutcome),
      (fetchRoadmapItemsV2 c now f u).2 ≠ c →
        ∃ v, u = Except.ok v ∧ (fetchRoadmapItemsV2 c now f u).1 = Except.ok (v.getD [])) := by
  constructor
  · intro c now f e
    cases hres : resolveFilter f with
    | error e' => rw [fetch_eq_of_sanitize_error c now f _ e' hres]
    | ok sf =>
        cases hl : cacheLookup c now (cacheKeyOf sf) with
        | some data => rw [fetch_eq_of_hit c now f _ sf data hres hl]
        | none => rw [fetch_eq_of_miss c now f _ sf hres hl]; rfl
  · intro c now f u
    cases hres : resolveFilter f with
    | error e' =>
        rw [fetch_eq_of_sanitize_error c now f u e' hres]
        intro h
        exact absurd rfl h
    | ok sf =>
        cases hl : cacheLookup c now (cacheKeyOf sf) with
        | some data =>
            rw [fetch_eq_of_hit c now f u sf data hres hl]
            intro h
            exact absurd rfl h
        | none =>
            rw [fetch_eq_of_miss c now f u sf hres hl]
            cases u with
            | error e => intro h; exact absurd rfl h
            | ok v => intro _; exact ⟨v, rfl, rfl⟩

/-- Witness for C6: a fully successful fetch on an empty cache does change
the cache, and the second conjunct then identifies the successful outcome. -/
theorem C6_failure_leaves_cache_unchanged_witness :
    ∃ v, (Except.ok (some (mkItems 1)) : UpstreamOutcome) = Except.ok v ∧
      (fetchRoadmapItemsV2 ([] : Cache) 0 none (Except.ok (some (mkItems 1)))).1 =
        Except.ok (v.getD []) :=
  C6_failure_leaves_cache_unchanged.2 ([] : Cache) 0 none
    (Except.ok (some (mkItems 1))) (by decide)

/-! ## Claim C1 -/

/-- C1: with an entry present for the effective cache key, a fetch at age
strictly below 5 minutes (300000 ms) returns the stored item sequence
unchanged and leaves the cache untouched, while a fetch at age ≥ 5 minutes
behaves exactly like the cacheless upstream path (a miss), and a failing
upstream call does not delete the expired entry. -/
theorem C1_cache_ttl (c : Cache) (now : Nat) (fa sf : Option String)
    (e : CacheEntry) (u : UpstreamOutcome)
    (hres : resolveFilter fa = Except.ok sf)
    (hget : Cache.get c (cacheKeyOf sf) = some e) :
    (now - e.timestamp < MAX_CACHE_AGE_MS →
      fetchRoadmapItemsV2 c now fa u = (Except.ok e.data, c)) ∧
    (MAX_CACHE_AGE_MS ≤ now - e.timestamp →
      fetchRoadmapItemsV2 c now fa u = fetchUpstream c now sf (cacheKeyOf sf) u ∧
      ∀ err : FetchError, u = Except.error err →
        Cache.get (fetchRoadmapItemsV2 c now fa u).2 (cacheKeyOf sf) = some e) := by
  constructor
  · intro hage
    have hl : cacheLookup c now (cacheKeyOf sf) = some e.data := by
      unfold cacheLookup
      rw [hget]
      show (if now - e.timestamp < MAX_CACHE_AGE_MS then some e.data else none) = some e.data
      rw [if_pos hage]
    exact fetch_eq_of_hit c now fa u sf e.data hres hl
  · intro hage
    have hl : cacheLookup c now (cacheKeyOf sf) = none := by
      unfold cacheLookup
      rw [hget]
      show (if now - e.timestamp < MAX_CACHE_AGE_MS then some e.data else none) = none
      rw [if_neg (by omega)]
    constructor
    · exact fetch_eq_of_miss c now fa u sf hres hl
    · intro err hu
      subst hu
      rw [fetch_eq_of_miss c now fa (Except.error err) sf hres hl]
      exact hget

/-- Witness for C1: a concrete cache entry of age 100 ms is a hit, and the
same entry at age 300000 ms is a miss whose failing upstream call leaves
the entry in place. -/
theorem C1_cache_ttl_witness :
    (fetchRoadmapItemsV2 [("all", { data := mkItems 2, timestamp := 100 })] 200 none
        (Except.error FetchError.timeout) = (Except.ok (mkItems 2),
          [("all", { data := mkItems 2, timestamp := 100 })])) ∧
    Cache.get (fetchRoadmapItemsV2 [("all", { data := mkItems 2, timestamp := 100 })] 300100 none
        (Except.error FetchError.timeout)).2 "all" = some { data := mkItems 2, timestamp := 100 } := by
  constructor
  · exact (C1_cache_ttl [("all", { data := mkItems 2, timestamp := 100 })] 200 none none
      { data := mkItems 2, timestamp := 100 } (Except.error FetchError.timeout)
      rfl rfl).1 (by decide)
  · exact ((C1_cache_ttl [("all", { data := mkItems 2, timestamp := 100 })] 300100 none none
      { data := mkItems 2, timestamp := 100 } (Except.error FetchError.timeout)
      rfl rfl).2 (by decide)).2 FetchError.timeout rfl

/-! ## Sanitizer lemmas (regex semantics) -/

theorem headMatches_iff (w cs : List Char) :
    headMatches w cs = true ↔ ∃ r, cs = w ++ r := by
  induction w generalizing cs with
  | nil => simp [headMatches]
  | cons a w ih =>
      cases cs with
      | nil => simp [headMatches]
      | cons b cs' =>
          simp only [headMatches, Bool.and_eq_true, beq_iff_eq, ih, List.cons_append]
          constructor
          · rintro ⟨rfl, r, rfl⟩
            exact ⟨r, rfl⟩
          · rintro ⟨r, h⟩
            injection h with h1 h2
            exact ⟨h1.symm, r, h2⟩

theorem containsWholeWord_iff (s w : String) (hw : w.data ≠ []) :
    containsWholeWord s w = true ↔ WholeWordOccurs (lowerChars s) w.data := by
  unfold containsWholeWord WholeWordOccurs
  rw [List.any_eq_true]
  constructor
  · rintro ⟨i, hi, hmatch⟩
    rw [List.mem_range] at hi
    unfold wholeWordAt at hmatch
    rw [Bool.and_eq_true, Bool.and_eq_true] at hmatch
    obtain ⟨⟨h1, h2⟩, h3⟩ := hmatch
    obtain ⟨r, hr⟩ := (headMatches_iff _ _).1 h1
    have hile : i ≤ (lowerChars s).length := by
      by_contra hlt
      push_neg at hlt
      rw [List.drop_eq_nil_of_le (le_of_lt hlt)] at hr
      exact hw (List.append_eq_nil.1 hr.symm).1
    have hdropr : (lowerChars s).drop (i + w.data.length) = r := by
      rw [← List.drop_drop, hr, List.drop_left]
    refine ⟨(lowerChars s).take i, r, ?_, ?_, ?_⟩
    · conv_lhs => rw [← List.take_append_drop i (lowerChars s)]
      rw [hr, List.append_assoc]
    · rcases Nat.eq_zero_or_pos i with hz | hpos
      · left
        rw [hz]
        rfl
      · right
        rw [Bool.or_eq_true] at h2
        rcases h2 with h2 | h2
        · simp at h2
          omega

        · refine ⟨(lowerChars s).getD (i - 1) ' ', ?_, by simpa using h2⟩
          rw [List.getLast?_eq_getElem?, List.length_take, min_eq_left hile,
            List.getElem?_take, if_pos (by omega), List.getD_eq_getElem?_getD]
          cases hg : (lowerChars s)[i - 1]? with
          | none =>
              rw [List.getElem?_eq_none_iff] at hg
              omega
          | some c0 => rfl
    · rw [hdropr] at h3
      cases r with
      | nil => left; rfl
      | cons c0 r' =>
          right
          refine ⟨c0, rfl, ?_⟩
          simpa using h3
  · rintro ⟨l, r, hdecomp, hleft, hright⟩
    rw [List.append_assoc] at hdecomp
    refine ⟨l.length, ?_, ?_⟩
    · rw [List.mem_range, hdecomp]
      simp only [List.length_append]
      omega
    · unfold wholeWordAt
      rw [Bool.and_eq_true, Bool.and_eq_true]
      refine ⟨⟨?_, ?_⟩, ?_⟩
      · rw [hdecomp, List.drop_left]
        exact (headMatches_iff _ _).2 ⟨r, rfl⟩
      · rw [Bool.or_eq_true]
        rcases hleft with hl0 | ⟨c0, hlast, hword⟩
        · left
          rw [hl0]
          rfl
        · right
          have hlne : l ≠ [] := by
            intro hh
            rw [hh] at hlast
            cases hlast
          have hlpos : 0 < l.length := List.length_pos.2 hlne
          have hgd : (lowerChars s).getD (l.length - 1) ' ' = c0 := by
            rw [List.getD_eq_getElem?_getD, hdecomp, List.getElem?_append_left (by omega),
              ← List.getLast?_eq_getElem?, hlast]
            rfl
          rw [hgd, hword]
          rfl
      · have hdropr : (lowerChars s).drop (l.length + w.data.length) = r := by
          rw [hdecomp, ← List.drop_drop, List.drop_left, List.drop_left]
        rw [hdropr]
        rcases hright with hr0 | ⟨c0, hhead, hword⟩
        · rw [hr0]
          rfl
        · cases r with
          | nil => cases hhead
          | cons c1 r' =>
              simp only [List.head?_cons, Option.some.injEq] at hhead
              subst hhead
              simp [hword]

theorem dangerousKeywords_nonempty : ∀ w ∈ dangerousKeywords, w.data ≠ [] := by
  decide

theorem hasDangerousKeyword_iff (t : String) :
    hasDangerousKeyword t = true ↔ ContainsBlockedWord t := by
  unfold hasDangerousKeyword ContainsBlockedWord
  rw [List.any_eq_true]
  constructor
  · rintro ⟨w, hwmem, hcw⟩
    exact ⟨w, hwmem, (containsWholeWord_iff t w (dangerousKeywords_nonempty w hwmem)).1 hcw⟩
  · rintro ⟨w, hwmem, hocc⟩
    exact ⟨w, hwmem, (containsWholeWord_iff t w (dangerousKeywords_nonempty w hwmem)).2 hocc⟩

/-! ## Claim C3 -/

/-- C3: the sanitizer strips semicolons and backslashes, trims, and then
fails exactly when the stripped expression contains a blocklisted keyword
as a whole word (case-insensitively); otherwise it returns the
stripped-and-trimmed expression; in particular it rejects
`status eq 'x'; DROP` and returns `status eq 'Launched'` unchanged. -/
theorem C3_sanitizer_rejection :
    (∀ s : String,
      (sanitizeODataFilter s = Except.error FetchError.invalidFilter ↔
        ContainsBlockedWord (jsTrim (stripSemicolonsBackslashes s))) ∧
      (sanitizeODataFilter s = Except.error FetchError.invalidFilter ∨
        sanitizeODataFilter s = Except.ok (jsTrim (stripSemicolonsBackslashes s)))) ∧
    sanitizeODataFilter ("status eq " ++ sq ++ "x" ++ sq ++ "; DROP") =
      Except.error FetchError.invalidFilter ∧
    sanitizeODataFilter ("status eq " ++ sq ++ "Launched" ++ sq) =
      Except.ok ("status eq " ++ sq ++ "Launched" ++ sq) := by
  refine ⟨?_, by decide, by decide⟩
  intro s
  unfold sanitizeODataFilter
  by_cases h : hasDangerousKeyword (jsTrim (stripSemicolonsBackslashes s)) = true
  · rw [if_pos h]
    refine ⟨⟨fun _ => (hasDangerousKeyword_iff _).1 h, fun _ => rfl⟩, Or.inl rfl⟩
  · rw [if_neg h]
    refine ⟨⟨(fun hcontra => by cases hcontra), fun hocc => ?_⟩, Or.inr rfl⟩
    exact absurd ((hasDangerousKeyword_iff _).2 hocc) h

/-! ## Claim C4 -/

theorem undoubleQuotes_escape (cs : List Char) :
    undoubleQuotes (cs.flatMap (fun c => if c = qc then [qc, qc] else [c])) = cs := by
  induction cs with
  | nil => rfl
  | cons c cs ih =>
      by_cases hc : c = qc
      · subst hc
        simp only [List.flatMap_cons, if_pos rfl, List.cons_append, List.nil_append]
        show undoubleQuotes (qc :: qc :: cs.flatMap _) = qc :: cs
        rw [undoubleQuotes, if_pos ⟨rfl, rfl⟩, ih]
      · simp only [List.flatMap_cons, if_neg hc, List.cons_append, List.nil_append]
        cases hfm : cs.flatMap (fun c => if c = qc then [qc, qc] else [c]) with
        | nil =>
            have hcs : cs = [] := by
              cases cs with
              | nil => rfl
              | cons d ds =>
                  rw [List.flatMap_eq_nil_iff] at hfm
                  have := hfm d (List.mem_cons_self d ds)
                  by_cases hd : d = qc <;> simp [hd] at this
            subst hcs
            rfl
        | cons d rest =>
            rw [undoubleQuotes, if_neg (fun hh => hc hh.1), ← hfm, ih]

/-- Counterexample to C4: the `filter_by_date` handler interpolates the
raw `date` argument between single-quote delimiters without doubling its
embedded single quote. -/
theorem C4_quote_escaping_counterexample :
    dateFilter ("a" ++ sq ++ "b") DateType.generalAvailability =
      "generalAvailabilityDate eq " ++ sq ++ "a" ++ sq ++ "b" ++ sq ∧
    dateFilter ("a" ++ sq ++ "b") DateType.generalAvailability ≠
      "generalAvailabilityDate eq " ++ sq ++ escapeSingleQuotes ("a" ++ sq ++ "b") ++ sq := by
  constructor
  · decide
  · decide

/-- C4 (amended): only `filter_by_product` escapes embedded single quotes
by doubling (and the doubling is lossless); `filter_by_status` and
`filter_by_release_phase` interpolate enum labels that cannot contain a
quote; `filter_by_date` interpolates the raw date between quote delimiters
unescaped, and `get_roadmap_item` interpolates the raw id with no quote
delimiters at all. The product filter for `O'Brien's Tool` contains
`O''Brien''s Tool` between the quote delimiters. -/
theorem C4_quote_escaping_amended :
    productFilter ("O" ++ sq ++ "Brien" ++ sq ++ "s Tool") =
      "products/any(p:p eq " ++ sq ++ "O" ++ sq ++ sq ++ "Brien" ++ sq ++ sq ++ "s Tool" ++ sq ++ ")" ∧
    (∀ p : String, undoubleQuotes (escapeSingleQuotes p).data = p.data) ∧
    (∀ st : Status, st.label.data.contains qc = false) ∧
    (∀ ph : Phase, ph.label.data.contains qc = false) ∧
    dateFilter ("2025-10" ++ sq ++ "x") DateType.preview =
      "previewAvailabilityDate eq " ++ sq ++ "2025-10" ++ sq ++ "x" ++ sq ∧
    idFilter ("x" ++ sq ++ "y") = "id eq x" ++ sq ++ "y" := by
  refine ⟨by decide, ?_, ?_, ?_, by decide, by decide⟩
  · intro p
    have : (escapeSingleQuotes p).data =
        p.data.flatMap (fun c => if c = qc then [qc, qc] else [c]) := rfl
    rw [this, undoubleQuotes_escape]
  · intro st
    cases st <;> decide
  · intro ph
    cases ph <;> decide

/-! ## Slice lemmas -/

theorem jsSlice_nonneg (l : List RoadmapItem) (s k : Int) (hs : 0 ≤ s) (hk : 0 ≤ k) :
    jsSlice l s (s + k) = (l.drop s.toNat).take k.toNat := by
  simp only [jsSlice]
  rw [if_neg (by omega), if_neg (by omega)]
  by_cases hsl : s ≤ (l.length : Int)
  · rw [min_eq_left hsl]
    by_cases hek : s + k ≤ (l.length : Int)
    · rw [min_eq_left hek]
      congr 1
      omega
    · rw [min_eq_right (by omega)]
      have hlen : (l.drop s.toNat).length = l.length - s.toNat := List.length_drop _ _
      rw [List.take_of_length_le (by omega), List.take_of_length_le (by omega)]
  · rw [min_eq_right (by omega), min_eq_right (by omega), Int.sub_self]
    rw [List.drop_eq_nil_of_le (by omega)]
    simp
    omega

/-! ## Claim C5 -/

/-- C5: with schema-valid `limit` (1..1000) and `offset` (≥ 0), a
successful `get_roadmap_items` call over a fetched sequence returns
exactly the slice `[offset, offset+limit)` with
`hasMore = offset + limit < total`; in particular limit 10 / offset 5
over 23 items yields 10 items starting at index 5 with `hasMore = true`,
and offset 20 yields 3 items with `hasMore = false`. -/
theorem C5_pagination :
    (∀ (limit offset : Int) (filter : Option String) (c : Cache) (now : Nat)
        (u : UpstreamOutcome) (items : List RoadmapItem) (c' : Cache),
      1 ≤ limit → limit ≤ MAX_RESULTS_LIMIT → 0 ≤ offset →
      fetchRoadmapItemsV2 c now filter u = (Except.ok items, c') →
      get_roadmap_items limit offset filter c now u =
        (Except.ok
          { total := items.length
            returned := ((items.drop offset.toNat).take limit.toNat).length
            offset := offset
            limit := limit
            hasMore := decide (offset + limit < (items.length : Int))
            items := (items.drop offset.toNat).take limit.toNat }, c')) ∧
    get_roadmap_items 10 5 none ([] : Cache) 0 (Except.ok (some (mkItems 23))) =
      (Except.ok
        { total := 23, returned := 10, offset := 5, limit := 10, hasMore := true,
          items := ((mkItems 23).drop 5).take 10 },
        [("all", { data := mkItems 23, timestamp := 0 })]) ∧
    get_roadmap_items 10 20 none ([] : Cache) 0 (Except.ok (some (mkItems 23))) =
      (Except.ok
        { total := 23, returned := 3, offset := 20, limit := 10, hasMore := false,
          items := ((mkItems 23).drop 20).take 10 },
        [("all", { data := mkItems 23, timestamp := 0 })]) := by
  refine ⟨?_, by decide, by decide⟩
  intro limit offset filter c now u items c' h1 h2 h3 hfetch
  have hmin : min limit MAX_RESULTS_LIMIT = limit := min_eq_left h2
  have hmax : max 0 offset = offset := max_eq_right h3
  simp only [get_roadmap_items, hfetch, hmin, hmax]
  rw [jsSlice_nonneg items offset limit h3 (by omega)]

/-- Witness for C5: the universal part applied to the concrete 23-item
fetch with limit 10 and offset 5. -/
theorem C5_pagination_witness :
    get_roadmap_items 10 5 none ([] : Cache) 0 (Except.ok (some (mkItems 23))) =
      (Except.ok
        { total := (mkItems 23).length
          returned := (((mkItems 23).drop (5 : Int).toNat).take (10 : Int).toNat).length
          offset := 5
          limit := 10
          hasMore := decide ((5 : Int) + 10 < ((mkItems 23).length : Int))
          items := ((mkItems 23).drop (5 : Int).toNat).take (10 : Int).toNat },
        [("all", { data := mkItems 23, timestamp := 0 })]) :=
  C5_pagination.1 10 5 none ([] : Cache) 0 (Except.ok (some (mkItems 23)))
    (mkItems 23) [("all", { data := mkItems 23, timestamp := 0 })]
    (by decide) (by decide) (by decide) (by decide)

/-! ## Claim C7 -/

/-- Counterexample to C7: the `search_roadmap` success envelope has keys
`keyword`, `found`, `items` only — no `total` and no `returned` field. -/
theorem C7_envelope_counterexample :
    SearchEnvelope.jsonKeys.contains "total" = false ∧
    SearchEnvelope.jsonKeys.contains "returned" = false ∧
    search_roadmap "x" 20 ([] : Cache) 0 (Except.ok (some [])) =
      (Except.ok { keyword := "x", found := 0, items := [] },
        [("all", { data := [], timestamp := 0 })]) := by
  refine ⟨by decide, by decide, by decide⟩

/-- C7 (amended): six of the eight handlers (`get_roadmap_items`,
`filter_by_product`, `filter_by_release_phase`, `filter_by_status`,
`filter_by_date`, `filter_roadmap`) return envelopes containing `total`,
`returned` and `items`; `get_roadmap_items` additionally returns `offset`,
`limit` and `hasMore`, and `filter_by_product` additionally `hasMore`;
`search_roadmap` instead returns `keyword`, `found`, `items`, and
`get_roadmap_item` returns the bare item with no envelope. -/
theorem C7_envelope_amended :
    (∀ k ∈ ["total", "returned", "items"],
      GetItemsEnvelope.jsonKeys.contains k = true ∧
      ProductEnvelope.jsonKeys.contains k = true ∧
      PhaseEnvelope.jsonKeys.contains k = true ∧
      StatusEnvelope.jsonKeys.contains k = true ∧
      DateEnvelope.jsonKeys.contains k = true ∧
      FilterEnvelope.jsonKeys.contains k = true) ∧
    (∀ k ∈ ["offset", "limit", "hasMore"], GetItemsEnvelope.jsonKeys.contains k = true) ∧
    ProductEnvelope.jsonKeys.contains "hasMore" = true ∧
    SearchEnvelope.jsonKeys = ["keyword", "found", "items"] ∧
    get_roadmap_item "1" ([] : Cache) 0 (Except.ok (some [{ id := "1" }])) =
      (Except.ok { id := "1" },
        [("id eq 1", { data := [{ id := "1" }], timestamp := 0, filter := some "id eq 1" })]) := by
  refine ⟨by decide, by decide, by decide, by decide, by decide⟩

/-- Witness for C7 (amended): the key `total` is indeed present in the six
envelope key sets that carry it. -/
theorem C7_envelope_amended_witness :
    GetItemsEnvelope.jsonKeys.contains "total" = true ∧
    ProductEnvelope.jsonKeys.contains "total" = true ∧
    PhaseEnvelope.jsonKeys.contains "total" = true ∧
    StatusEnvelope.jsonKeys.contains "total" = true ∧
    DateEnvelope.jsonKeys.contains "total" = true ∧
    FilterEnvelope.jsonKeys.contains "total" = true :=
  C7_envelope_amended.1 "total" (by decide)

/-! ## Claim C8 -/

/-- Counterexample to C8: two `filter_by_status` calls with different
arguments produce bit-for-bit identical error responses, so the error
envelope cannot carry the original call arguments as contextual data. -/
theorem C8_error_envelope_counterexample :
    filter_by_status Status.launched 100 ([] : Cache) 0 (Except.error FetchError.timeout) =
      filter_by_status Status.inDevelopment 100 ([] : Cache) 0 (Except.error FetchError.timeout) := by
  decide

/-- C8 (amended): every error raised during handler execution is caught at
the handler boundary and converted into an error-flagged response carrying
a human-readable message; `get_roadmap_items` and `filter_by_product`
additionally include the original call arguments as contextual data, the
other six handlers return only an `Error: <message>` text (and the
`get_roadmap_item` not-found case its own error text). -/
theorem C8_error_envelope_amended :
    (∀ (limit offset : Int) (filter : Option String) (c : Cache) (now : Nat)
        (u : UpstreamOutcome) (e : FetchError) (c' : Cache),
      fetchRoadmapItemsV2 c now filter u = (Except.error e, c') →
      get_roadmap_items limit offset filter c now u =
        (Except.error
          { code := -32000
            message := e.message
            dataFilter := filter
            dataLimit := limit
            dataOffset := offset }, c')) ∧
    (∀ (keyword : String) (limit : Int) (c : Cache) (now : Nat)
        (u : UpstreamOutcome) (e : FetchError) (c' : Cache),
      fetchRoadmapItemsV2 c now none u = (Except.error e, c') →
      search_roadmap keyword limit c now u = (Except.error ("Error: " ++ e.message), c')) ∧
    (∀ (id : String) (c : Cache) (now : Nat) (u : UpstreamOutcome)
        (e : FetchError) (c' : Cache),
      fetchRoadmapItemsV2 c now (some (idFilter id)) u = (Except.error e, c') →
      get_roadmap_item id c now u = (Except.error ("Error: " ++ e.message), c')) ∧
    (∀ (id : String) (c : Cache) (now : Nat) (u : UpstreamOutcome) (c' : Cache),
      fetchRoadmapItemsV2 c now (some (idFilter id)) u = (Except.ok [], c') →
      get_roadmap_item id c now u =
        (Except.error ("No roadmap item found with ID: " ++ id), c')) ∧
    (∀ (product : String) (limit : Int) (c : Cache) (now : Nat)
        (u : UpstreamOutcome) (e : FetchError) (c' : Cache),
      fetchRoadmapItemsV2 c now (some (productFilter product)) u = (Except.error e, c') →
      filter_by_product product limit c now u =
        (Except.error
          { code := -32000
            message := e.message
            dataProduct := product
            dataLimit := limit }, c')) ∧
    (∀ (phase : Phase) (limit : Int) (c : Cache) (now : Nat)
        (u : UpstreamOutcome) (e : FetchError) (c' : Cache),
      fetchRoadmapItemsV2 c now (some (phaseFilter phase)) u = (Except.error e, c') →
      filter_by_release_phase phase limit c now u =
        (Except.error ("Error: " ++ e.message), c')) ∧
    (∀ (status : Status) (limit : Int) (c : Cache) (now : Nat)
        (u : UpstreamOutcome) (e : FetchError) (c' : Cache),
      fetchRoadmapItemsV2 c now (some (statusFilter status)) u = (Except.error e, c') →
      filter_by_status status limit c now u =
        (Except.error ("Error: " ++ e.message), c')) ∧
    (∀ (date : String) (dt : DateType) (limit : Int) (c : Cache) (now : Nat)
        (u : UpstreamOutcome) (e : FetchError) (c' : Cache),
      fetchRoadmapItemsV2 c now (some (dateFilter date dt)) u = (Except.error e, c') →
      filter_by_date date dt limit c now u =
        (Except.error ("Error: " ++ e.message), c')) ∧
    (∀ (filter : String) (limit : Int) (c : Cache) (now : Nat)
        (u : UpstreamOutcome) (e : FetchError) (c' : Cache),
      fetchRoadmapItemsV2 c now (some filter) u = (Except.error e, c') →
      filter_roadmap filter limit c now u =
        (Except.error ("Error: " ++ e.message), c')) := by
  refine ⟨?_, ?_, ?_, ?_, ?_, ?_, ?_, ?_, ?_⟩
  · intro limit offset filter c now u e c' hfetch
    simp only [get_roadmap_items, hfetch]
  · intro keyword limit c now u e c' hfetch
    simp only [search_roadmap, hfetch]
  · intro id c now u e c' hfetch
    simp only [get_roadmap_item, hfetch]
  · intro id c now u c' hfetch
    simp only [get_roadmap_item, hfetch, List.head?_nil]
  · intro product limit c now u e c' hfetch
    simp only [filter_by_product, hfetch]
  · intro phase limit c now u e c' hfetch
    simp only [filter_by_release_phase, hfetch]
  · intro status limit c now u e c' hfetch
    simp only [filter_by_status, hfetch]
  · intro date dt limit c now u e c' hfetch
    simp only [filter_by_date, hfetch]
  · intro filter limit c now u e c' hfetch
    simp only [filter_roadmap, hfetch]

/-- Witness for C8: a concrete timeout during `get_roadmap_items` yields
the argument-carrying error object, and during `filter_by_date` only the
plain error text. -/
theorem C8_error_envelope_amended_witness :
    get_roadmap_items 100 0 none ([] : Cache) 0 (Except.error FetchError.timeout) =
      (Except.error
        { code := -32000
          message := FetchError.timeout.message
          dataFilter := none
          dataLimit := 100
          dataOffset := 0 }, ([] : Cache)) ∧
    filter_by_date "2025-10" DateType.generalAvailability 100 ([] : Cache) 0
        (Except.error FetchError.timeout) =
      (Except.error ("Error: " ++ FetchError.timeout.message), ([] : Cache)) :=
  ⟨C8_error_envelope_amended.1 100 0 none ([] : Cache) 0
      (Except.error FetchError.timeout) FetchError.timeout ([] : Cache) (by decide),
    C8_error_envelope_amended.2.2.2.2.2.2.2.1 "2025-10" DateType.generalAvailability 100
      ([] : Cache) 0 (Except.error FetchError.timeout) FetchError.timeout ([] : Cache) (by decide)⟩

/-! ## Claim C9 -/

theorem productFilter_ne_empty (product : String) : productFilter product ≠ "" := by
  intro h
  have hd : (productFilter product).data = [] := by rw [h]
  simp only [productFilter, String.data_append, List.append_eq_nil] at hd
  exact (by decide : ("products/any(p:p eq " : String).data ≠ []) hd.1.1.1.1

/-- Counterexample to C9: the schema-valid product name `x;update`
contains the blocklisted keyword `update` as a whole word (the semicolon
is not a word character), yet the call succeeds: the sanitizer strips the
semicolon before the keyword test, so the stripped filter contains only
`xupdate`, which no longer matches `\bupdate\b`. -/
theorem C9_built_filter_sanitized_counterexample :
    ContainsBlockedWord "x;update" ∧
    1 ≤ ("x;update" : String).length ∧
    ("x;update" : String).length ≤ 200 ∧
    filter_by_product "x;update" 100 ([] : Cache) 0 (Except.ok (some [])) =
      (Except.ok
        { product := "x;update"
          total := 0
          returned := 0
          hasMore := false
          items := [] },
        [("products/any(p:p eq " ++ sq ++ "xupdate" ++ sq ++ ")",
          { data := [], timestamp := 0,
            filter := some ("products/any(p:p eq " ++ sq ++ "xupdate" ++ sq ++ ")") })]) :=
  ⟨(hasDangerousKeyword_iff "x;update").1 (by decide), by decide, by decide, by decide⟩

/-- C9 (amended): every filter built by `filter_by_product` is passed
through the sanitizer before any cache or network access, but the
semicolon/backslash stripping happens before the keyword test, so the call
returns the error-flagged response exactly when the built filter *after
stripping and trimming* still contains a blocklisted keyword as a whole
word — and proceeds to a success envelope otherwise. A product such as
`Windows update tool` (no characters to strip) therefore still fails even
though it satisfies the declared input schema. -/
theorem C9_built_filter_sanitized_amended :
    (∀ (product : String) (limit : Int) (c : Cache) (now : Nat)
        (u : UpstreamOutcome) (err : FetchError),
      sanitizeODataFilter (productFilter product) = Except.error err →
      filter_by_product product limit c now u =
        (Except.error
          { code := -32000
            message := err.message
            dataProduct := product
            dataLimit := limit }, c)) ∧
    (∀ product : String,
      sanitizeODataFilter (productFilter product) = Except.error FetchError.invalidFilter ↔
        ContainsBlockedWord (jsTrim (stripSemicolonsBackslashes (productFilter product)))) ∧
    (∀ (product : String) (limit : Int) (c : Cache) (now : Nat)
        (u : UpstreamOutcome) (items : List RoadmapItem) (c' : Cache),
      fetchRoadmapItemsV2 c now (some (productFilter product)) u = (Except.ok items, c') →
      filter_by_product product limit c now u =
        (Except.ok
          { product := product
            total := items.length
            returned := (jsSlice items 0 (min limit MAX_RESULTS_LIMIT)).length
            hasMore := decide ((jsSlice items 0 (min limit MAX_RESULTS_LIMIT)).length < items.length)
            items := jsSlice items 0 (min limit MAX_RESULTS_LIMIT) }, c')) ∧
    (∀ (limit : Int) (c : Cache) (now : Nat) (u : UpstreamOutcome),
      filter_by_product "Windows update tool" limit c now u =
        (Except.error
          { code := -32000
            message := FetchError.invalidFilter.message
            dataProduct := "Windows update tool"
            dataLimit := limit }, c)) ∧
    1 ≤ ("Windows update tool" : String).length ∧
    ("Windows update tool" : String).length ≤ 200 := by
  have hA : ∀ (product : String) (limit : Int) (c : Cache) (now : Nat)
      (u : UpstreamOutcome) (err : FetchError),
      sanitizeODataFilter (productFilter product) = Except.error err →
      filter_by_product product limit c now u =
        (Except.error
          { code := -32000
            message := err.message
            dataProduct := product
            dataLimit := limit }, c) := by
    intro product limit c now u err hsan
    have hres : resolveFilter (some (productFilter product)) = Except.error err := by
      show (if productFilter product = "" then Except.ok none
        else Except.map some (sanitizeODataFilter (productFilter product))) = Except.error err
      rw [if_neg (productFilter_ne_empty product), hsan]
      rfl
    have hfetch := fetch_eq_of_sanitize_error c now (some (productFilter product)) u err hres
    simp only [filter_by_product, hfetch]
  refine ⟨hA, ?_, ?_, ?_, by decide, by decide⟩
  · intro product
    unfold sanitizeODataFilter
    by_cases h : hasDangerousKeyword (jsTrim (stripSemicolonsBackslashes (productFilter product))) = true
    · rw [if_pos h]
      exact ⟨fun _ => (hasDangerousKeyword_iff _).1 h, fun _ => rfl⟩
    · rw [if_neg h]
      exact ⟨(fun hcontra => by cases hcontra),
        fun hocc => absurd ((hasDangerousKeyword_iff _).2 hocc) h⟩
  · intro product limit c now u items c' hfetch
    simp only [filter_by_product, hfetch]
  · intro limit c now u
    exact hA "Windows update tool" limit c now u FetchError.invalidFilter (by decide)

/-- Witness for C9 (amended): the sanitizer rejects the filter built for
the product name `drop tables` and the handler returns the error object,
while for `x;update` the fetch succeeds and the handler returns the
success envelope. -/
theorem C9_built_filter_sanitized_amended_witness :
    filter_by_product "drop tables" 5 ([] : Cache) 0 (Except.ok (some [])) =
      (Except.error
        { code := -32000
          message := FetchError.invalidFilter.message
          dataProduct := "drop tables"
          dataLimit := 5 }, ([] : Cache)) ∧
    filter_by_product "x;update" 100 ([] : Cache) 0 (Except.ok (some [])) =
      (Except.ok
        { product := "x;update"
          total := ([] : List RoadmapItem).length
          returned := (jsSlice [] 0 (min 100 MAX_RESULTS_LIMIT)).length
          hasMore := decide ((jsSlice [] 0 (min 100 MAX_RESULTS_LIMIT)).length <
            ([] : List RoadmapItem).length)
          items := jsSlice [] 0 (min 100 MAX_RESULTS_LIMIT) },
        [("products/any(p:p eq " ++ sq ++ "xupdate" ++ sq ++ ")",
          { data := [], timestamp := 0,
            filter := some ("products/any(p:p eq " ++ sq ++ "xupdate" ++ sq ++ ")") })]) :=
  ⟨C9_built_filter_sanitized_amended.1 "drop tables" 5 ([] : Cache) 0 (Except.ok (some []))
      FetchError.invalidFilter (by decide),
    C9_built_filter_sanitized_amended.2.2.1 "x;update" 100 ([] : Cache) 0 (Except.ok (some []))
      [] [("products/any(p:p eq " ++ sq ++ "xupdate" ++ sq ++ ")",
        { data := [], timestamp := 0,
          filter := some ("products/any(p:p eq " ++ sq ++ "xupdate" ++ sq ++ ")") })]
      (by decide)⟩

/-! ## Claim C10 -/

theorem jsSlice_zero_start (l : List RoadmapItem) (L : Int) :
    jsSlice l 0 L = jsSliceSpec l L := by
  by_cases h : L < 0
  · simp only [jsSlice, jsSliceSpec, if_pos h, if_neg (show ¬((0 : Int) < 0) by omega)]
    rw [min_eq_left (show (0 : Int) ≤ (l.length : Int) by omega)]
    simp only [Int.toNat_zero, List.drop_zero, Int.sub_zero]
    congr 1
    rcases le_total ((l.length : Int) + L) 0 with h' | h'
    · rw [max_eq_right h']
      omega
    · rw [max_eq_left h']
      omega
  · simp only [jsSlice, jsSliceSpec, if_neg h, if_neg (show ¬((0 : Int) < 0) by omega)]
    rw [min_eq_left (show (0 : Int) ≤ (l.length : Int) by omega)]
    simp only [Int.toNat_zero, List.drop_zero, Int.sub_zero]
    by_cases hl : L ≤ (l.length : Int)
    · rw [min_eq_left hl]
    · rw [min_eq_right (by omega)]
      rw [List.take_of_length_le (by omega), List.take_of_length_le (by omega)]

/-- C10: the five handlers whose `limit` has no declared bounds
(`search_roadmap`, `filter_by_release_phase`, `filter_by_status`,
`filter_by_date`, `filter_roadmap`) accept any integer limit and apply
`slice(0, limit)` semantics: limit 0 yields no items and a negative limit
`n` yields all fetched (or keyword-matched) items except the last `|n|`,
with no validation error. -/
theorem C10_unbounded_limits :
    (∀ (keyword : String) (L : Int) (c : Cache) (now : Nat) (u : UpstreamOutcome)
        (items : List RoadmapItem) (c' : Cache),
      fetchRoadmapItemsV2 c now none u = (Except.ok items, c') →
      search_roadmap keyword L c now u =
        (Except.ok
          { keyword := keyword
            found := (jsSliceSpec (items.filter (matchesKeyword (lowerStr keyword))) L).length
            items := jsSliceSpec (items.filter (matchesKeyword (lowerStr keyword))) L }, c')) ∧
    (∀ (phase : Phase) (L : Int) (c : Cache) (now : Nat) (u : UpstreamOutcome)
        (items : List RoadmapItem) (c' : Cache),
      fetchRoadmapItemsV2 c now (some (phaseFilter phase)) u = (Except.ok items, c') →
      filter_by_release_phase phase L c now u =
        (Except.ok
          { phase := phase.label
            total := items.length
            returned := (jsSliceSpec items L).length
            items := jsSliceSpec items L }, c')) ∧
    (∀ (status : Status) (L : Int) (c : Cache) (now : Nat) (u : UpstreamOutcome)
        (items : List RoadmapItem) (c' : Cache),
      fetchRoadmapItemsV2 c now (some (statusFilter status)) u = (Except.ok items, c') →
      filter_by_status status L c now u =
        (Except.ok
          { status := status.label
            total := items.length
            returned := (jsSliceSpec items L).length
            items := jsSliceSpec items L }, c')) ∧
    (∀ (date : String) (dt : DateType) (L : Int) (c : Cache) (now : Nat)
        (u : UpstreamOutcome) (items : List RoadmapItem) (c' : Cache),
      fetchRoadmapItemsV2 c now (some (dateFilter date dt)) u = (Except.ok items, c') →
      filter_by_date date dt L c now u =
        (Except.ok
          { date := date
            dateType := dt.label
            total := items.length
            returned := (jsSliceSpec items L).length
            items := jsSliceSpec items L }, c')) ∧
    (∀ (filter : String) (L : Int) (c : Cache) (now : Nat) (u : UpstreamOutcome)
        (items : List RoadmapItem) (c' : Cache),
      fetchRoadmapItemsV2 c now (some filter) u = (Except.ok items, c') →
      filter_roadmap filter L c now u =
        (Except.ok
          { filter := filter
            total := items.length
            returned := (jsSliceSpec items L).length
            items := jsSliceSpec items L }, c')) ∧
    jsSliceSpec (mkItems 5) 0 = [] ∧
    jsSliceSpec (mkItems 5) (-2) = (mkItems 5).take 3 := by
  refine ⟨?_, ?_, ?_, ?_, ?_, by decide, by decide⟩
  · intro keyword L c now u items c' hfetch
    simp only [search_roadmap, hfetch, jsSlice_zero_start]
  · intro phase L c now u items c' hfetch
    simp only [filter_by_release_phase, hfetch, jsSlice_zero_start]
  · intro status L c now u items c' hfetch
    simp only [filter_by_status, hfetch, jsSlice_zero_start]
  · intro date dt L c now u items c' hfetch
    simp only [filter_by_date, hfetch, jsSlice_zero_start]
  · intro filter L c now u items c' hfetch
    simp only [filter_roadmap, hfetch, jsSlice_zero_start]

/-- Witness for C10: a concrete `filter_by_status` call with a negative
limit succeeds and drops exactly the last item. -/
theorem C10_unbounded_limits_witness :
    filter_by_status Status.launched (-1) ([] : Cache) 0 (Except.ok (some (mkItems 3))) =
      (Except.ok
        { status := Status.launched.label
          total := (mkItems 3).length
          returned := (jsSliceSpec (mkItems 3) (-1)).length
          items := jsSliceSpec (mkItems 3) (-1) },
        [(statusFilter Status.launched,
          { data := mkItems 3, timestamp := 0, filter := some (statusFilter Status.launched) })]) :=
  C10_unbounded_limits.2.2.1 Status.launched (-1) ([] : Cache) 0
    (Except.ok (some (mkItems 3))) (mkItems 3)
    [(statusFilter Status.launched,
      { data := mkItems 3, timestamp := 0, filter := some (statusFilter Status.launched) })]
    (by decide)

end Roadmap
